import Mathlib

/-!
Verification of the PU notice-board monitor (src/monitor.py).

The program keeps one JSON state file holding the previously seen set of
notice identifiers, fetches the notice page, extracts a set of
"title - date" identifier strings, diffs it against the previous set,
sends Telegram messages for first runs and for newly added notices, and
finally overwrites the state file with the current set.

The embedding below translates the relevant parts of monitor.py:

* `get_previous_notices` / `save_current_notices` model the state store,
  including Python's `set(...)` behaviour on arbitrary JSON values (which
  raises `TypeError` on non-iterable values such as numbers);
* `acceptItem` / `extractNotices` model the per-item parsing loop with its
  whitespace normalization and validity filter (date label shorter than
  25 characters and containing a digit);
* `classify` / `runMessages` model the compare-and-notify branch chain
  (lines 126-150), and `check_for_updates` the whole run after the state
  has been loaded, returning what was written and which messages were sent.
-/

namespace Monitor

mutual
/-- JSON values as produced by Python's `json.load` (numbers modelled as
integers; floats do not occur in this program's state files). Arrays and
objects carry their own list types `JList` and `JObj` so that decidable
equality can be derived. -/
inductive JValue where
  | jnull : JValue
  | jbool : Bool → JValue
  | jnum : Int → JValue
  | jstr : String → JValue
  | jarr : JList → JValue
  | jobj : JObj → JValue
deriving DecidableEq
inductive JList where
  | nil : JList
  | cons : JValue → JList → JList
deriving DecidableEq
inductive JObj where
  | onil : JObj
  | ocons : String → JValue → JObj → JObj
deriving DecidableEq
end

/-- The elements of a JSON array, as an ordinary list. -/
def JList.toList : JList → List JValue
  | .nil => []
  | .cons v tl => v :: tl.toList

/-- A JSON array holding the given elements. -/
def JList.ofList : List JValue → JList
  | [] => .nil
  | v :: tl => .cons v (JList.ofList tl)

/-- The keys of a JSON object, in order. -/
def JObj.keys : JObj → List String
  | .onil => []
  | .ocons k _ tl => k :: tl.keys

/-- Python hashability of a JSON value: lists and dicts are unhashable. -/
def JValue.hashable : JValue → Bool
  | .jarr _ => false
  | .jobj _ => false
  | _ => true

/-- Python `set(v)` on a JSON value `v`: iterables yield a set of their
elements (characters of a string, elements of a list, keys of a dict);
non-iterables (null, booleans, numbers) raise `TypeError`, as does a list
with unhashable elements. In monitor.py line 48 `len(data)` already raises
the same `TypeError` for non-iterables, before `set(data)` is reached. -/
def pySet : JValue → Except String (Finset JValue)
  | .jnull => .error "TypeError: not iterable"
  | .jbool _ => .error "TypeError: not iterable"
  | .jnum _ => .error "TypeError: not iterable"
  | .jstr s => .ok ((s.toList.map (fun c => JValue.jstr (String.mk [c]))).toFinset)
  | .jarr xs => if xs.toList.all JValue.hashable then .ok xs.toList.toFinset
                else .error "TypeError: unhashable"
  | .jobj kvs => .ok ((kvs.keys.map JValue.jstr).toFinset)

/-- The state file as `get_previous_notices` sees it: missing
(`FileNotFoundError`), present but not decodable as JSON
(`json.JSONDecodeError`), or decoded to a JSON value. -/
inductive ParseResult where
  | fileNotFound : ParseResult
  | decodeError : ParseResult
  | ok : JValue → ParseResult

/-- monitor.py lines 42-55: `get_previous_notices` returns the empty set when
the file is missing or fails to decode, and otherwise returns `set(data)`
(which can itself raise, see `pySet`). -/
def get_previous_notices : ParseResult → Except String (Finset JValue)
  | .fileNotFound => .ok ∅
  | .decodeError => .ok ∅
  | .ok v => pySet v

/-- monitor.py lines 57-63: `json.dump(list(notices_set), f)`. Python's
`list(...)` enumerates the set in an arbitrary order, so the serialized
value is a function of an enumeration `l` of the set. -/
def save_current_notices (l : List String) : JValue :=
  .jarr (JList.ofList (l.map .jstr))

/-- One candidate list item from the page: the text of its first `a` tag
(title) and of its first `span` tag (date), when present. -/
structure RawItem where
  title : Option String
  date : Option String

/-- Splitting a character list into maximal whitespace-free words, as
Python's no-argument `str.split()` does; `acc` holds the current word
reversed. -/
def wordsAux : List Char → List Char → List (List Char)
  | [], acc => if acc.isEmpty then [] else [acc.reverse]
  | c :: cs, acc =>
    if c.isWhitespace then
      if acc.isEmpty then wordsAux cs [] else acc.reverse :: wordsAux cs []
    else wordsAux cs (c :: acc)

/-- Python `s.split()` (no argument): whitespace-separated words, no empties. -/
def pyWords (s : String) : List String :=
  (wordsAux s.toList []).map (fun w => String.mk w)

/-- monitor.py lines 107-108: `" ".join(s.split())`, collapsing runs of
whitespace to single spaces and trimming both ends. -/
def normWS (s : String) : String :=
  String.intercalate " " (pyWords s)

/-- monitor.py lines 102-115, body of the extraction loop for one item:
requires both tags, normalizes whitespace, and keeps the item only when the
normalized date label is shorter than 25 characters and contains at least
one digit; the identifier is `title ++ " - " ++ date`. -/
def acceptItem (item : RawItem) : Option String :=
  match item.title, item.date with
  | some t, some d =>
    let title := normWS t
    let date := normWS d
    if date.length < 25 ∧ date.toList.any Char.isDigit = true then
      some (title ++ " - " ++ date)
    else
      none
  | _, _ => none

/-- monitor.py lines 85-117: `current_notices_set`, the set of identifiers of
all accepted items. -/
def extractNotices (items : List RawItem) : Finset String :=
  (items.filterMap acceptItem).toFinset

/-- The parsed page: the items matched by the primary selector
`.card-body ul li` and by the fallback selector `ul li`. -/
structure Page where
  primaryItems : List RawItem
  fallbackItems : List RawItem

/-- monitor.py lines 89-98: use the primary selector's items, falling back to
the broader selector when the primary finds nothing. -/
def selectedItems (page : Page) : List RawItem :=
  if page.primaryItems.isEmpty then page.fallbackItems else page.primaryItems

/-- monitor.py line 12. -/
def NOTICES_URL : String := "https://pu.edu.np/notices/"

/-- monitor.py lines 133-137: the first-run message, a fixed string (the
leading characters reproduce the mojibake emoji bytes of the source). -/
def initMessage : String :=
  "âœ… **PU Monitor Initialized**\n\n" ++
  "The monitor is now active and has fetched the initial list of notices. " ++
  "You will be notified of any future changes."

/-- monitor.py lines 141-147: the new-notices message, rendering each notice
of the given (already sorted) list as a bulleted line. -/
def newNoticesMessage (newSorted : List String) : String :=
  "ðŸš¨ **New PU Notice(s) Detected** ðŸš¨\n\n" ++
  "The following new notice(s) have been published:\n\n" ++
  "<b>" ++ String.intercalate "\n"
    (newSorted.map (fun notice => "â€¢ " ++ notice)) ++
  "</b>\n\n" ++
  "View all notices here:\n" ++ NOTICES_URL

/-- The four branches of the comparison at monitor.py lines 126-150. -/
inductive RunClass where
  | noChange : RunClass
  | firstRun : RunClass
  | newNotices : RunClass
  | removedOnly : RunClass
deriving DecidableEq

/-- monitor.py lines 126-150, the branch conditions in source order:
`previous == current`, then `not previous and current`, then
`new_notices` (that is, `current - previous` nonempty), else the
removed-only branch. -/
def classify (prev cur : Finset String) : RunClass :=
  if prev = cur then .noChange
  else if prev = ∅ ∧ cur ≠ ∅ then .firstRun
  else if cur \ prev ≠ ∅ then .newNotices
  else .removedOnly

/-- monitor.py line 141: `sorted(list(new_notices))`, Python's ascending
lexicographic sort of the set's elements. -/
def sortedNotices (s : Finset String) : List String :=
  s.sort (· ≤ ·)

/-- The Telegram messages sent by the comparison step (lines 126-150): one
fixed message on the first-run branch, one new-notices message on the
added-notices branch, nothing otherwise. -/
def runMessages (prev cur : Finset String) : List String :=
  match classify prev cur with
  | .noChange => []
  | .firstRun => [initMessage]
  | .newNotices => [newNoticesMessage (sortedNotices (cur \ prev))]
  | .removedOnly => []

/-- Outcome of the fetch step (monitor.py lines 74-81): `failure` covers a
`requests.exceptions.RequestException`, raised on network errors, timeouts
and, via `raise_for_status()`, on HTTP error statuses. -/
inductive FetchResult where
  | failure : FetchResult
  | success : Page → FetchResult

/-- Observable outcome of one run: the set written to the state file (or
`none` when the run returned before the save), and the messages sent. -/
structure RunResult where
  saved : Option (Finset String)
  messages : List String
deriving DecidableEq

/-- monitor.py lines 65-155, `check_for_updates` after the previous state has
been loaded: abort on fetch failure, abort when both selectors match nothing,
abort when no valid notice is extracted (line 119-121, before the save),
otherwise send the comparison step's messages and save the current set. -/
def check_for_updates (prev : Finset String) (fetch : FetchResult) : RunResult :=
  match fetch with
  | .failure => ⟨none, []⟩
  | .success page =>
    if (selectedItems page).isEmpty then ⟨none, []⟩
    else if extractNotices (selectedItems page) = ∅ then ⟨none, []⟩
    else ⟨some (extractNotices (selectedItems page)),
          runMessages prev (extractNotices (selectedItems page))⟩

/-- The content of the state file after a run, given its content before:
unchanged unless the run wrote a new set. -/
def stateAfter (before : Option (Finset String)) (r : RunResult) :
    Option (Finset String) :=
  match r.saved with
  | some s => some s
  | none => before

/-- Substring test: `needle` occurs contiguously in `hay`. -/
def occursIn (needle hay : String) : Bool :=
  (List.range (hay.length + 1)).any
    (fun i => (hay.toList.drop i).take needle.length == needle.toList)

lemma JList.toList_ofList (xs : List JValue) : (JList.ofList xs).toList = xs := by
  induction xs with
  | nil => rfl
  | cons v tl ih => simp [JList.ofList, JList.toList, ih]

lemma jstr_injective : Function.Injective JValue.jstr := by
  intro a b h
  injection h

lemma map_jstr_all_hashable (l : List String) :
    (l.map JValue.jstr).all JValue.hashable = true := by
  rw [List.all_eq_true]
  intro x hx
  rw [List.mem_map] at hx
  obtain ⟨a, -, rfl⟩ := hx
  rfl

/-- Loading a state file that holds a serialized enumeration of a notice set
yields exactly that set of strings (as JSON string values). -/
lemma load_save (l : List String) :
    get_previous_notices (ParseResult.ok (save_current_notices l)) =
      Except.ok (l.toFinset.image JValue.jstr) := by
  show pySet (JValue.jarr (JList.ofList (l.map JValue.jstr))) = _
  simp only [pySet, JList.toList_ofList]
  rw [if_pos (map_jstr_all_hashable l)]
  refine congrArg Except.ok (Finset.ext fun b => ?_)
  simp [List.mem_toFinset, Finset.mem_image, List.mem_map]

/-- C5: diffing a fingerprint against itself always lands in the no-change
branch, so no message is produced and no delta is rendered; this holds for
the empty fingerprint as well. -/
theorem diff_self_noChange (F : Finset String) :
    classify F F = RunClass.noChange ∧ runMessages F F = [] := by
  refine ⟨by simp [classify], ?_⟩
  simp [runMessages, classify]

/-- C7: when the fetch fails, the run aborts with no state write and no
message, whatever the previous state was. -/
theorem fetch_failure_aborts (before : Option (Finset String))
    (prev : Finset String) :
    stateAfter before (check_for_updates prev FetchResult.failure) = before ∧
    (check_for_updates prev FetchResult.failure).messages = [] :=
  ⟨rfl, rfl⟩

/-- C3: when the previous state is non-empty and the current extraction
yields no valid notice, the run returns before the save (lines 119-121), so
the stored state is unchanged and no message is sent. -/
theorem empty_extraction_preserves_state (before : Option (Finset String))
    (prev : Finset String) (page : Page)
    (hprev : prev ≠ ∅)
    (hemp : extractNotices (selectedItems page) = ∅) :
    stateAfter before (check_for_updates prev (FetchResult.success page)) = before ∧
    (check_for_updates prev (FetchResult.success page)).messages = [] := by
  have hrun : check_for_updates prev (FetchResult.success page) = ⟨none, []⟩ := by
    simp only [check_for_updates]
    by_cases hsel : (selectedItems page).isEmpty
    · rw [if_pos hsel]
    · rw [if_neg hsel, if_pos hemp]
  rw [hrun]
  exact ⟨rfl, rfl⟩

/-- C3 witness: a page whose only item fails the validity filter leaves a
non-empty stored state untouched and sends nothing. -/
theorem empty_extraction_preserves_state_witness :
    stateAfter (some {"Exam form open - 7 Jan 2025"})
        (check_for_updates {"Exam form open - 7 Jan 2025"}
          (FetchResult.success
            ⟨[⟨some "Home", some "Submitted by Registrar\x27s Office"⟩], []⟩))
      = some {"Exam form open - 7 Jan 2025"} ∧
    (check_for_updates {"Exam form open - 7 Jan 2025"}
        (FetchResult.success
          ⟨[⟨some "Home", some "Submitted by Registrar\x27s Office"⟩], []⟩)).messages
      = [] :=
  empty_extraction_preserves_state _ _ _ (by decide) (by decide)

/-- C10: whenever a run writes the state file, the set it writes is
non-empty: the guard at lines 119-121 returns before the save whenever the
extraction came up empty, so once created the state file always holds a
non-empty list. -/
theorem saved_fingerprint_nonempty (prev : Finset String) (fetch : FetchResult)
    (s : Finset String) (h : (check_for_updates prev fetch).saved = some s) :
    s ≠ ∅ := by
  cases fetch with
  | failure => exact absurd h (by simp [check_for_updates])
  | success page =>
    simp only [check_for_updates] at h
    by_cases hsel : (selectedItems page).isEmpty
    · rw [if_pos hsel] at h
      exact absurd h (by simp)
    · rw [if_neg hsel] at h
      by_cases hemp : extractNotices (selectedItems page) = ∅
      · rw [if_pos hemp] at h
        exact absurd h (by simp)
      · rw [if_neg hemp] at h
        have h2 : some (extractNotices (selectedItems page)) = some s := h
        injection h2 with h3
        rw [← h3]
        exact hemp

/-- C10 witness: a run that saves has saved a non-empty set. -/
theorem saved_fingerprint_nonempty_witness :
    ({"Scholarship list - 5 Feb 2025"} : Finset String) ≠ ∅ :=
  saved_fingerprint_nonempty ∅
    (FetchResult.success ⟨[⟨some "Scholarship list", some "5 Feb 2025"⟩], []⟩)
    {"Scholarship list - 5 Feb 2025"} (by decide)

/-- C8: an item with both tags is accepted exactly when its
whitespace-normalized date label is shorter than 25 characters and contains
a digit; the label "Submitted by Registrar's Office" is rejected and the
label "12 Jan 2025" is accepted. -/
theorem validity_filter (t d : String) :
    ((acceptItem ⟨some t, some d⟩).isSome ↔
      (normWS d).length < 25 ∧ (normWS d).toList.any Char.isDigit = true) ∧
    acceptItem ⟨some "Nav Menu", some "Submitted by Registrar\x27s Office"⟩ = none ∧
    acceptItem ⟨some "Exam Notice", some "12 Jan 2025"⟩
      = some "Exam Notice - 12 Jan 2025" := by
  refine ⟨?_, by decide, by decide⟩
  by_cases h : (normWS d).length < 25 ∧ (normWS d).toList.any Char.isDigit = true
  · simp [acceptItem, h]
  · simp [acceptItem, h]

/-- C6 counterexample: a state file whose content is the valid JSON value 3
is corrupted state, yet get_previous_notices raises an uncaught TypeError
(line 48 calls len on the decoded value and line 49 calls set on it; only
FileNotFoundError and json.JSONDecodeError are caught), instead of treating
the corrupt state as absent. -/
theorem corrupt_state_file_raises :
    get_previous_notices (ParseResult.ok (JValue.jnum 3))
      = Except.error "TypeError: not iterable" := rfl

/-- C6 (amended): load returns the empty previous set when the state file is
missing or when its content fails to decode as JSON; but a file decoding to
a non-iterable JSON value (a number, a boolean, null) raises an uncaught
TypeError rather than being treated as absent. -/
theorem load_missing_or_undecodable_is_absent :
    get_previous_notices ParseResult.fileNotFound = Except.ok ∅ ∧
    get_previous_notices ParseResult.decodeError = Except.ok ∅ ∧
    (∀ n : Int, get_previous_notices (ParseResult.ok (JValue.jnum n))
      = Except.error "TypeError: not iterable") ∧
    (∀ b : Bool, get_previous_notices (ParseResult.ok (JValue.jbool b))
      = Except.error "TypeError: not iterable") ∧
    get_previous_notices (ParseResult.ok JValue.jnull)
      = Except.error "TypeError: not iterable" :=
  ⟨rfl, rfl, fun _ => rfl, fun _ => rfl, rfl⟩

/-- C4: saving a fingerprint (serializing any enumeration of it) and loading
the result yields exactly that fingerprint embedded as JSON strings,
independently of the enumeration order; jstr being injective, this is the
original set of strings. -/
theorem save_load_round_trip (F : Finset String) (l₁ l₂ : List String)
    (h₁ : l₁.toFinset = F) (h₂ : l₂.toFinset = F) :
    get_previous_notices (ParseResult.ok (save_current_notices l₁)) =
      Except.ok (F.image JValue.jstr) ∧
    get_previous_notices (ParseResult.ok (save_current_notices l₁)) =
      get_previous_notices (ParseResult.ok (save_current_notices l₂)) ∧
    Function.Injective JValue.jstr := by
  refine ⟨by rw [load_save, h₁], ?_, jstr_injective⟩
  rw [load_save, load_save, h₁, h₂]

/-- C4 witness: two enumerations of the same two-element fingerprint load
back to the same set. -/
theorem save_load_round_trip_witness :
    get_previous_notices (ParseResult.ok (save_current_notices ["a", "b"])) =
      Except.ok (({"a", "b"} : Finset String).image JValue.jstr) ∧
    get_previous_notices (ParseResult.ok (save_current_notices ["a", "b"])) =
      get_previous_notices (ParseResult.ok (save_current_notices ["b", "a"])) ∧
    Function.Injective JValue.jstr :=
  save_load_round_trip {"a", "b"} ["a", "b"] ["b", "a"] (by decide) (by decide)

set_option maxRecDepth 8000 in
/-- C2 counterexample: two first runs over different non-empty current
fingerprints send the same single message, so the first-run message does not
carry the current fingerprint (it is the fixed initMessage, in which the
extracted notice identifier does not even occur as a substring, and no
15-entry preview exists anywhere in the code). -/
theorem first_run_message_is_constant :
    (check_for_updates ∅ (FetchResult.success
        ⟨[⟨some "Alpha", some "1 Jan 2025"⟩], []⟩)).saved
      ≠ (check_for_updates ∅ (FetchResult.success
          ⟨[⟨some "Beta", some "2 Feb 2025"⟩], []⟩)).saved ∧
    (check_for_updates ∅ (FetchResult.success
        ⟨[⟨some "Alpha", some "1 Jan 2025"⟩], []⟩)).messages
      = (check_for_updates ∅ (FetchResult.success
          ⟨[⟨some "Beta", some "2 Feb 2025"⟩], []⟩)).messages ∧
    occursIn "Alpha - 1 Jan 2025" initMessage = false :=
  ⟨by decide, by decide, by decide⟩

/-- C2 (amended): with an absent (empty) previous state and a non-empty
extraction, the run takes the first-run branch and sends the fixed
initialization message, then saves the current fingerprint; the message does
not include the fingerprint contents. -/
theorem first_run_sends_fixed_init_message (page : Page)
    (h : extractNotices (selectedItems page) ≠ ∅) :
    classify ∅ (extractNotices (selectedItems page)) = RunClass.firstRun ∧
    check_for_updates ∅ (FetchResult.success page) =
      ⟨some (extractNotices (selectedItems page)), [initMessage]⟩ := by
  have hsel : ¬ (selectedItems page).isEmpty = true := by
    intro hs
    apply h
    rw [List.isEmpty_iff.mp hs]
    rfl
  have hcls : classify ∅ (extractNotices (selectedItems page)) = RunClass.firstRun := by
    unfold classify
    rw [if_neg (fun heq => h heq.symm), if_pos ⟨rfl, h⟩]
  refine ⟨hcls, ?_⟩
  simp only [check_for_updates]
  rw [if_neg hsel, if_neg h]
  simp only [runMessages, hcls]

/-- C2 witness: a concrete first run. -/
theorem first_run_sends_fixed_init_message_witness :
    classify ∅ (extractNotices (selectedItems
        ⟨[⟨some "Result published", some "3 Mar 2025"⟩], []⟩)) = RunClass.firstRun ∧
    check_for_updates ∅ (FetchResult.success
        ⟨[⟨some "Result published", some "3 Mar 2025"⟩], []⟩) =
      ⟨some (extractNotices (selectedItems
        ⟨[⟨some "Result published", some "3 Mar 2025"⟩], []⟩)), [initMessage]⟩ :=
  first_run_sends_fixed_init_message _ (by decide)

set_option maxRecDepth 8000 in
/-- C1 counterexample: for previous = singleton B and current = pair A, C
(all distinct), the only message sent renders just the added notices, in
ascending lexicographic order (A before C, and A is less than C), and the
removed notice B does not occur anywhere in it: the Changed output contains
no removed part and is not sorted descending. -/
theorem changed_message_omits_removed_and_sorts_ascending :
    runMessages {"B - 1 Jan 2025"} {"A - 1 Jan 2025", "C - 2 Jan 2025"} =
      [newNoticesMessage ["A - 1 Jan 2025", "C - 2 Jan 2025"]] ∧
    occursIn "B - 1 Jan 2025"
      (newNoticesMessage ["A - 1 Jan 2025", "C - 2 Jan 2025"]) = false ∧
    ("A - 1 Jan 2025" : String) < "C - 2 Jan 2025" := by
  refine ⟨?_, by decide, by rw [String.lt_iff_toList_lt]; decide⟩
  have hcls : classify {"B - 1 Jan 2025"} {"A - 1 Jan 2025", "C - 2 Jan 2025"}
      = RunClass.newNotices := by decide
  have hdiff : ({"A - 1 Jan 2025", "C - 2 Jan 2025"} : Finset String)
      \ {"B - 1 Jan 2025"} = {"A - 1 Jan 2025", "C - 2 Jan 2025"} := by decide
  have hsort : sortedNotices {"A - 1 Jan 2025", "C - 2 Jan 2025"}
      = ["A - 1 Jan 2025", "C - 2 Jan 2025"] := by
    unfold sortedNotices
    rw [show ({"A - 1 Jan 2025", "C - 2 Jan 2025"} : Finset String)
        = insert "A - 1 Jan 2025" {"C - 2 Jan 2025"} from rfl]
    rw [Finset.sort_insert, Finset.sort_singleton]
    · intro b hb
      rw [Finset.mem_singleton] at hb
      subst hb
      rw [String.le_iff_toList_le]
      decide
    · decide
  simp only [runMessages, hcls, hdiff, hsort]

/-- C1 (amended): when previous and current are non-empty and differ and the
added set (current minus previous) is non-empty, exactly one message is
sent, rendering the added notices sorted in ascending order (and exactly the
added notices); removed notices are never rendered, and when the added set
is empty no message is sent at all (see the removed-only theorem). -/
theorem changed_message_lists_added_sorted (prev cur : Finset String)
    (hprev : prev ≠ ∅) (hcur : cur ≠ ∅) (hne : prev ≠ cur)
    (hadd : cur \ prev ≠ ∅) :
    runMessages prev cur = [newNoticesMessage (sortedNotices (cur \ prev))] ∧
    List.Sorted (· ≤ ·) (sortedNotices (cur \ prev)) ∧
    (sortedNotices (cur \ prev)).toFinset = cur \ prev := by
  have hcls : classify prev cur = RunClass.newNotices := by
    unfold classify
    rw [if_neg hne, if_neg (fun hand => hprev hand.1), if_pos hadd]
  refine ⟨by simp only [runMessages, hcls], ?_, ?_⟩
  · exact Finset.sort_sorted _ _
  · exact Finset.sort_toFinset _ _

/-- C1 witness: a concrete changed run with one added notice. -/
theorem changed_message_lists_added_sorted_witness :
    runMessages {"P - 1 Jan 2025"}
        ({"P - 1 Jan 2025", "Q - 2 Jan 2025"} : Finset String) =
      [newNoticesMessage (sortedNotices
        (({"P - 1 Jan 2025", "Q - 2 Jan 2025"} : Finset String)
          \ {"P - 1 Jan 2025"}))] ∧
    List.Sorted (· ≤ ·) (sortedNotices
      (({"P - 1 Jan 2025", "Q - 2 Jan 2025"} : Finset String)
        \ {"P - 1 Jan 2025"})) ∧
    (sortedNotices (({"P - 1 Jan 2025", "Q - 2 Jan 2025"} : Finset String)
        \ {"P - 1 Jan 2025"})).toFinset
      = ({"P - 1 Jan 2025", "Q - 2 Jan 2025"} : Finset String)
          \ {"P - 1 Jan 2025"} :=
  changed_message_lists_added_sorted _ _
    (by decide) (by decide) (by decide) (by decide)

/-- C9: in a removed-only change (both sides non-empty, differing, nothing
added), the run sends no message (line 150 only logs) and still overwrites
the state with the current, smaller fingerprint (line 153). -/
theorem removed_only_saves_without_notification (prev : Finset String)
    (page : Page)
    (hprev : prev ≠ ∅)
    (hcur : extractNotices (selectedItems page) ≠ ∅)
    (hne : prev ≠ extractNotices (selectedItems page))
    (hrem : extractNotices (selectedItems page) \ prev = ∅) :
    check_for_updates prev (FetchResult.success page) =
      ⟨some (extractNotices (selectedItems page)), []⟩ ∧
    extractNotices (selectedItems page) ⊆ prev := by
  have hsel : ¬ (selectedItems page).isEmpty = true := by
    intro hs
    apply hcur
    rw [List.isEmpty_iff.mp hs]
    rfl
  have hcls : classify prev (extractNotices (selectedItems page))
      = RunClass.removedOnly := by
    unfold classify
    rw [if_neg hne, if_neg (fun hand => hprev hand.1),
      if_neg (fun hd => hd hrem)]
  constructor
  · simp only [check_for_updates]
    rw [if_neg hsel, if_neg hcur]
    simp only [runMessages, hcls]
  · exact Finset.sdiff_eq_empty_iff_subset.mp hrem

/-- C9 witness: a run where one of two stored notices disappears. -/
theorem removed_only_saves_without_notification_witness :
    check_for_updates {"A - 1 Jan 2025", "B - 2 Feb 2025"}
        (FetchResult.success ⟨[⟨some "A", some "1 Jan 2025"⟩], []⟩) =
      ⟨some (extractNotices (selectedItems
        ⟨[⟨some "A", some "1 Jan 2025"⟩], []⟩)), []⟩ ∧
    extractNotices (selectedItems ⟨[⟨some "A", some "1 Jan 2025"⟩], []⟩)
      ⊆ {"A - 1 Jan 2025", "B - 2 Feb 2025"} :=
  removed_only_saves_without_notification _ _
    (by decide) (by decide) (by decide) (by decide)

end Monitor
